import Mathlib

/-!
Shallow embedding of the base-table component
(`src/table/base-table/index.tsx`) of tdesign-vue-next.

JavaScript numeric values that may be `undefined` (and arithmetic on them,
which may yield `NaN`) are modelled as `Option Int`, with `none` standing
for `undefined`/`NaN`; `Option`-propagating arithmetic mirrors the fact
that any arithmetic on `undefined` produces `NaN`.
-/

namespace BaseTable

/-- A JavaScript number-or-undefined value; `none` models `undefined`
and also the result `NaN` of arithmetic involving `undefined`. -/
abbrev JSNum := Option Int

/-- JS truthiness of a number-or-undefined value: `undefined`, `NaN`
and `0` are falsy, every other number is truthy. -/
def truthy : JSNum → Bool
  | none => false
  | some v => v != 0

/-- JS `a || b` on number-or-undefined values: yields `a` when `a` is
truthy, otherwise yields `b` (whatever `b` is, falsy included). -/
def jsOr (a b : JSNum) : JSNum := if truthy a then a else b

/-- JS subtraction; any `undefined` operand gives `NaN` (`none`). -/
def jsSub (a b : JSNum) : JSNum :=
  match a, b with
  | some x, some y => some (x - y)
  | _, _ => none

/-- JS multiplication; any `undefined` operand gives `NaN` (`none`). -/
def jsMul (a b : JSNum) : JSNum :=
  match a, b with
  | some x, some y => some (x * y)
  | _, _ => none

/-- The pagination props object (`this.pagination`): controlled
`current`/`pageSize` and uncontrolled `defaultCurrent`/`defaultPageSize`,
each possibly absent. -/
structure PaginationProps where
  current : JSNum
  defaultCurrent : JSNum
  pageSize : JSNum
  defaultPageSize : JSNum
deriving DecidableEq

/-- The component's internal reactive state relevant to pagination
(`data()`): `defaultCurrent` and `defaultPageSize`, both initialised
to `0` and updated only by pagination-widget change events. -/
structure TableState where
  defaultCurrent : Int
  defaultPageSize : Int
deriving DecidableEq

/-- Computed `current()`:
`this.pagination?.current || this.defaultCurrent || this.pagination?.defaultCurrent`.
The first argument is the pagination props (absent when the table has no
pagination), the second the internal `defaultCurrent` state field. -/
def current (pagination : Option PaginationProps) (defaultCurrent : Int) : JSNum :=
  jsOr (pagination.bind PaginationProps.current)
    (jsOr (some defaultCurrent) (pagination.bind PaginationProps.defaultCurrent))

/-- Computed `pageSize()`:
`this.pagination?.pageSize || this.defaultPageSize || this.pagination?.defaultPageSize`. -/
def pageSize (pagination : Option PaginationProps) (defaultPageSize : Int) : JSNum :=
  jsOr (pagination.bind PaginationProps.pageSize)
    (jsOr (some defaultPageSize) (pagination.bind PaginationProps.defaultPageSize))

/-- `ToIntegerOrInfinity` followed by the index clamping of
`Array.prototype.slice`: `NaN` becomes `0`; a negative index counts from
the end of the array (clamped at `0`); a nonnegative index is clamped at
the length. -/
def sliceIndex (len : Nat) : JSNum → Nat
  | none => 0
  | some i => if i < 0 then len - (-i).toNat else min i.toNat len

/-- `Array.prototype.slice(start, stop)` on a list, with JS index
coercion and clamping. -/
def jsSlice (data : List α) (start stop : JSNum) : List α :=
  (data.take (sliceIndex data.length stop)).drop (sliceIndex data.length start)

/-- JS comparison `len > v` where `v` is a number-or-undefined value:
any comparison with `undefined`/`NaN` is false. -/
def lenGt (len : Nat) : JSNum → Bool
  | none => false
  | some v => decide (v < (len : Int))

/-- Computed `dataSource()`, parametrised by the already-reconciled
`current` and `pageSize` values:
if there is no pagination, return `this.data.slice(0)` (a copy of the
whole dataset); if `this.data.length > pageSize`, return
`this.data.slice((current - 1) * pageSize, current * pageSize)`;
otherwise return `this.data`. -/
def dataSlice (hasPagination : Bool) (current pageSize : JSNum) (data : List α) : List α :=
  if !hasPagination then data
  else if lenGt data.length pageSize then
    jsSlice data (jsMul (jsSub current (some 1)) pageSize) (jsMul current pageSize)
  else data

/-- Computed `dataSource()` as a function of the props and the internal
state, composing the reconciliation chain with the slicer.
`hasPagination` is `!!this.pagination`. -/
def dataSource (pagination : Option PaginationProps) (st : TableState)
    (data : List α) : List α :=
  dataSlice pagination.isSome (current pagination st.defaultCurrent)
    (pageSize pagination st.defaultPageSize) data

/-- Computed `isEmpty()`:
`(!this.dataSource || this.dataSource.length === 0) && !this.loading`.
The embedded `dataSource` is a list (a JS array, which is always truthy),
so the `!this.dataSource` disjunct is identically false and the condition
reduces to the length test. -/
def isEmpty (dataSource : List α) (loading : Bool) : Bool :=
  (dataSource.length == 0) && !loading

/-- A column's `fixed` side. -/
inductive FixedSide where
  | left
  | right
deriving DecidableEq

/-- A column-spec node (`BaseTableCol`): an optional `fixed` side and an
optional list of child columns (empty list models "no children"). -/
inductive Col where
  | mk (fixed : Option FixedSide) (children : List Col)

/-- The `fixed` field of a column node. -/
def Col.fixed : Col → Option FixedSide
  | .mk f _ => f

/-- The child columns of a column node. -/
def Col.children : Col → List Col
  | .mk _ cs => cs

/-- Modelled from the spec: `flatColumns` (imported from
`../util/props-util`, whose source is not part of this corpus)
"recursively descends into columns with child columns, emitting only
leaf columns, preserving left-to-right document order". -/
def flatColumns : List Col → List Col
  | [] => []
  | c :: rest =>
    (match c with
     | .mk f [] => [Col.mk f []]
     | .mk _ (c0 :: cs) => flatColumns (c0 :: cs)) ++ flatColumns rest

/-- Whether a single column is fixed:
`item.fixed === 'right' || item.fixed === 'left'`. -/
def isFixedCol (c : Col) : Bool :=
  decide (c.fixed = some FixedSide.right) || decide (c.fixed = some FixedSide.left)

/-- Computed `hasFixedColumns()`:
`columns.some((item) => item.fixed === 'right' || item.fixed === 'left')`
over the *top-level* column list `this.columns` (not the flattened
leaves). -/
def hasFixedColumns (columns : List Col) : Bool :=
  columns.any fun item =>
    decide (item.fixed = some FixedSide.right) || decide (item.fixed = some FixedSide.left)

/-- The `height` prop: a number, a string, or absent. -/
inductive JSHeight where
  | num (n : Int)
  | str (s : String)
  | undef
deriving DecidableEq

/-- JavaScript `parseInt(s, 10)`: skip leading whitespace, read an
optional sign, then the longest prefix of decimal digits; `NaN` (`none`)
when no digit is found. -/
def parseIntJS (s : List Char) : JSNum :=
  let s1 := s.dropWhile fun c => c = ' '
  let signAndRest : Int × List Char :=
    match s1 with
    | '-' :: rest => (-1, rest)
    | '+' :: rest => (1, rest)
    | _ => (1, s1)
  let ds := signAndRest.2.takeWhile Char.isDigit
  if ds.isEmpty then none
  else some (signAndRest.1 *
    (ds.foldl (fun acc c => acc * 10 + (c.toNat - Char.toNat '0')) 0 : Nat))

/-- Computed `tableHeight()`:
`typeof height === 'string' ? parseInt(height, 10) : (height || 0)`.
An absent height yields `0`; a number yields itself (`0 || 0` is `0`);
a string yields its `parseInt`, which is `NaN` (`none`) when the string
has no leading number. -/
def tableHeight : JSHeight → JSNum
  | .num n => some n
  | .str s => parseIntJS s.data
  | .undef => some 0

/-- Computed `fixedHeader()`: `this.tableHeight > 0` (false when
`tableHeight` is `NaN`). -/
def fixedHeader (h : JSHeight) : Bool :=
  match tableHeight h with
  | some n => decide (0 < n)
  | none => false

/-- The layout mode of the spec: `FIXED_HEADER_SPLIT` exactly when the
code's `fixedHeader` computed property is true (the render function
branches on `fixedHeader` between the split header/body pair and the
single scrollable block). -/
inductive LayoutMode where
  | SINGLE_BLOCK
  | FIXED_HEADER_SPLIT
deriving DecidableEq

/-- Layout-mode selector derived from `fixedHeader`. -/
def layoutMode (h : JSHeight) : LayoutMode :=
  if fixedHeader h then .FIXED_HEADER_SPLIT else .SINGLE_BLOCK

/-- The scroll metrics of a mounted scroll container element. -/
structure ScrollRect where
  scrollLeft : Int
  scrollWidth : Int
  clientWidth : Int
deriving DecidableEq

/-- The two scroll-affordance state flags. -/
structure ScrollFlags where
  scrollableToLeft : Bool
  scrollableToRight : Bool
deriving DecidableEq

/-- Method `checkScrollableToLeftOrRight()`:
reads `this.$refs[this.fixedHeader ? 'scrollBody' : 'tableContent']` and
destructures `{ scrollLeft, scrollWidth, clientWidth }` from it with no
guard, then sets the two flags. When the ref is absent (`undefined`),
the destructuring throws a `TypeError`; the embedding returns that
outcome in `Except`. -/
def checkScrollableToLeftOrRight (ref : Option ScrollRect) (flags : ScrollFlags) :
    Except String ScrollFlags :=
  match ref with
  | none => .error "TypeError: cannot destructure scrollLeft of undefined"
  | some r =>
    .ok { flags with
            scrollableToLeft := decide (0 < r.scrollLeft),
            scrollableToRight := decide (r.scrollLeft + r.clientWidth < r.scrollWidth) }

/-- The window's event-listener registry together with a fresh-identity
counter. JS function values are compared by reference in
`removeEventListener`; each listener identity is modelled as a `Nat`
drawn from the counter. -/
structure World where
  nextId : Nat
  listeners : List Nat
deriving DecidableEq

/-- Modelled from the spec and JS closure semantics: `debounce` (imported
from `../util/common`, whose source is not part of this corpus) wraps a
function and returns a *new* function object on every call, so two calls
`debounce(f)` yield distinct references. The model allocates a fresh
identity from the counter. -/
def debounce (w : World) : Nat × World :=
  (w.nextId, { w with nextId := w.nextId + 1 })

/-- `window.addEventListener('resize', h)`: registers the handler. -/
def addEventListener (w : World) (id : Nat) : World :=
  { w with listeners := w.listeners ++ [id] }

/-- `window.removeEventListener('resize', h)`: removes the handler that
is reference-equal to `h`, if any; otherwise does nothing. -/
def removeEventListener (w : World) (id : Nat) : World :=
  { w with listeners := w.listeners.erase id }

/-- Method `addWindowResizeEventListener()` (called from `mounted()`):
`window.addEventListener('resize', debounce(this.checkScrollableToLeftOrRight))`. -/
def addWindowResizeEventListener (w : World) : World :=
  let d := debounce w
  addEventListener d.2 d.1

/-- Lifecycle hook `unmounted()`:
`window.removeEventListener('resize', debounce(this.checkScrollableToLeftOrRight))`
— note that it calls `debounce` again, producing a fresh wrapper. -/
def unmounted (w : World) : World :=
  let d := debounce w
  removeEventListener d.2 d.1

/-- A `page-change` emission: the page info forwarded from the
pagination widget together with the dataset slice passed as the second
event argument. -/
structure PageChangeContext (α π : Type) where
  pageInfo : π
  slice : List α
deriving DecidableEq

/-- The `onCurrentChange` handler installed on the pagination widget in
`renderPagination()`:
first `emitEvent(this, 'page-change', pageInfo, this.dataSource)` —
reading `this.dataSource` at that point, i.e. under the current internal
state — and only then `this.defaultCurrent = current`. Returns the
updated state and the emitted event. -/
def onCurrentChange (pag : PaginationProps) (data : List α) (st : TableState)
    (newCurrent : Int) (pageInfo : π) : TableState × PageChangeContext α π :=
  let emitted : PageChangeContext α π := ⟨pageInfo, dataSource (some pag) st data⟩
  let st1 : TableState := { st with defaultCurrent := newCurrent }
  (st1, emitted)

/-- The `onPageSizeChange` handler installed on the pagination widget in
`renderPagination()`: first emits `page-change` with `this.dataSource`
read under the current internal state, then
`this.defaultPageSize = pageSize`. -/
def onPageSizeChange (pag : PaginationProps) (data : List α) (st : TableState)
    (newPageSize : Int) (pageInfo : π) : TableState × PageChangeContext α π :=
  let emitted : PageChangeContext α π := ⟨pageInfo, dataSource (some pag) st data⟩
  let st1 : TableState := { st with defaultPageSize := newPageSize }
  (st1, emitted)

/-! Helper lemmas shared by several theorems. -/

/-- Taking `min n l.length` elements is the same as taking `n`. -/
theorem take_min_length (l : List α) (n : Nat) : l.take (min n l.length) = l.take n := by
  rcases Nat.le_total n l.length with h | h
  · rw [Nat.min_eq_left h]
  · rw [Nat.min_eq_right h, List.take_length, List.take_of_length_le h]

/-- `sliceIndex` on a nonnegative index clamps it at the length. -/
theorem sliceIndex_nonneg (len : Nat) (i : Int) (h : 0 ≤ i) :
    sliceIndex len (some i) = min i.toNat len := by
  simp only [sliceIndex]
  rw [if_neg (by omega)]

/-- `jsSlice` with nonnegative indices is the usual drop-then-take
window. -/
theorem jsSlice_nonneg (data : List α) (a b : Int) (ha : 0 ≤ a) (hb : 0 ≤ b) :
    jsSlice data (some a) (some b) = (data.drop a.toNat).take (b.toNat - a.toNat) := by
  unfold jsSlice
  rw [sliceIndex_nonneg _ _ ha, sliceIndex_nonneg _ _ hb]
  rcases Nat.le_total a.toNat data.length with hA | hA
  · rw [Nat.min_eq_left hA, take_min_length]
    rcases Nat.le_total a.toNat b.toNat with hab | hab
    · have hsum : b.toNat = a.toNat + (b.toNat - a.toNat) := by omega
      rw [hsum, ← List.take_drop]
      congr 1
      omega
    · have h1 : (data.take b.toNat).length ≤ a.toNat := by
        rw [List.length_take]; omega
      rw [List.drop_eq_nil_of_le h1, Nat.sub_eq_zero_of_le hab, List.take_zero]
  · rw [Nat.min_eq_right hA]
    have h1 : (data.take (min b.toNat data.length)).length ≤ data.length := by
      rw [List.length_take]; omega
    rw [List.drop_eq_nil_of_le h1, List.drop_eq_nil_of_le hA, List.take_nil]

/-! Theorems for the claims. -/

/-- C1: with pagination enabled, page `p ≥ 1`, size `s ≥ 1` and
`data.length > s`, the row slicer returns exactly the half-open window
`data[(p-1)*s : p*s]`, whose length is `min s (data.length - (p-1)*s)`
(with truncated subtraction, hence clamped at `0`); a page past the end
of the dataset yields the empty slice. -/
theorem row_slicer_window :
    ∀ (α : Type) (data : List α) (p s : Int), 1 ≤ p → 1 ≤ s → s < (data.length : Int) →
      dataSlice true (some p) (some s) data = (data.drop ((p - 1) * s).toNat).take s.toNat
      ∧ (dataSlice true (some p) (some s) data).length
          = min s.toNat (data.length - ((p - 1) * s).toNat)
      ∧ ((data.length : Int) ≤ (p - 1) * s → dataSlice true (some p) (some s) data = []) := by
  intro α data p s hp hs hlen
  have h0 : (0 : Int) ≤ (p - 1) * s := mul_nonneg (by omega) (by omega)
  have hslice : dataSlice true (some p) (some s) data
      = jsSlice data (some ((p - 1) * s)) (some (p * s)) := by
    simp [dataSlice, lenGt, jsSub, jsMul, hlen]
  have key : jsSlice data (some ((p - 1) * s)) (some (p * s))
      = (data.drop ((p - 1) * s).toNat).take s.toNat := by
    rw [jsSlice_nonneg data _ _ h0 (mul_nonneg (by omega) (by omega))]
    congr 1
    have hps : p * s = (p - 1) * s + s := by ring
    omega
  refine ⟨hslice.trans key, ?_, ?_⟩
  · rw [hslice, key, List.length_take, List.length_drop]
  · intro hpast
    rw [hslice, key]
    have hge : data.length ≤ ((p - 1) * s).toNat := by omega
    rw [List.drop_eq_nil_of_le hge, List.take_nil]

/-- C1 witness: page 2 of size 2 over a 5-row dataset is rows 3 and 4. -/
theorem row_slicer_window_witness :
    dataSlice true (some 2) (some 2) ([10, 20, 30, 40, 50] : List Int)
      = (([10, 20, 30, 40, 50] : List Int).drop (((2 : Int) - 1) * 2).toNat).take
          (2 : Int).toNat :=
  (row_slicer_window Int [10, 20, 30, 40, 50] 2 2 (by decide) (by decide) (by decide)).1

/-- C2: the reconciled current page follows the priority chain
controlled `current` > internal `defaultCurrent` > uncontrolled
`pagination.defaultCurrent`, and page size follows the same chain; a
present (truthy) controlled value always wins over the internal default,
and the spec's two concrete examples hold. -/
theorem pagination_priority :
    (∀ (pag : PaginationProps) (d c : Int), pag.current = some c → c ≠ 0 →
      current (some pag) d = some c)
    ∧ (∀ (pag : PaginationProps) (d : Int), truthy pag.current = false → d ≠ 0 →
      current (some pag) d = some d)
    ∧ (∀ (pag : PaginationProps) (d ps : Int), pag.pageSize = some ps → ps ≠ 0 →
      pageSize (some pag) d = some ps)
    ∧ (∀ (pag : PaginationProps) (d : Int), truthy pag.pageSize = false → d ≠ 0 →
      pageSize (some pag) d = some d)
    ∧ current (some ⟨some 3, some 5, none, none⟩) 5 = some 3
    ∧ current (some ⟨none, some 1, none, none⟩) 5 = some 5 := by
  refine ⟨?_, ?_, ?_, ?_, by decide, by decide⟩
  · intro pag d c hc hc0
    simp [current, jsOr, truthy, hc, hc0]
  · intro pag d hfalsy hd
    match hcur : pag.current with
    | none => simp [current, hcur, jsOr, truthy, hd]
    | some c =>
      have hc0 : c = 0 := by simpa [truthy, hcur] using hfalsy
      simp [current, hcur, hc0, jsOr, truthy, hd]
  · intro pag d ps hps hps0
    simp [pageSize, jsOr, truthy, hps, hps0]
  · intro pag d hfalsy hd
    match hps : pag.pageSize with
    | none => simp [pageSize, hps, jsOr, truthy, hd]
    | some c =>
      have hc0 : c = 0 := by simpa [truthy, hps] using hfalsy
      simp [pageSize, hps, hc0, jsOr, truthy, hd]

/-- C2 witness: a controlled current of 3 beats an internal default of 7. -/
theorem pagination_priority_witness :
    current (some ⟨some 3, none, none, none⟩) 7 = some 3 :=
  pagination_priority.1 ⟨some 3, none, none, none⟩ 7 3 rfl (by decide)

/-- C3 counterexample: for the one-column tree whose only (nested) leaf
is fixed left, the flattened leaves contain a fixed column, yet
`hasFixedColumns` — which inspects only the top-level list — is false.
This refutes the claimed equivalence for arbitrary nesting depth. -/
theorem hasFixed_nested_counterexample :
    hasFixedColumns [Col.mk none [Col.mk (some FixedSide.left) []]] = false
    ∧ (flatColumns [Col.mk none [Col.mk (some FixedSide.left) []]]).any isFixedCol = true := by
  constructor
  · rfl
  · simp [flatColumns, isFixedCol, Col.fixed]

/-- C3 amended: `hasFixedColumns` is true iff some *top-level* column has
`fixed` equal to `'left'` or `'right'`; this coincides with the
flattened-leaf criterion exactly when the column list is flat (no column
has children). -/
theorem hasFixed_top_level :
    (∀ cs : List Col, hasFixedColumns cs = cs.any isFixedCol)
    ∧ (∀ cs : List Col, (∀ c ∈ cs, c.children.isEmpty = true) →
        hasFixedColumns cs = (flatColumns cs).any isFixedCol) := by
  constructor
  · intro cs; rfl
  · intro cs
    induction cs with
    | nil => intro h; simp [flatColumns, hasFixedColumns]
    | cons c rest ih =>
      intro h
      obtain ⟨f, cls⟩ := c
      have hcls : cls = [] := by
        have hm := h (Col.mk f cls) (List.mem_cons_self _ _)
        simpa [Col.children, List.isEmpty_iff] using hm
      subst hcls
      have hrest : ∀ x ∈ rest, x.children.isEmpty = true :=
        fun x hx => h x (List.mem_cons_of_mem _ hx)
      have ihr := ih hrest
      rw [flatColumns]
      simp only [List.any_append, List.any_cons, List.any_nil, Bool.or_false,
        hasFixedColumns, isFixedCol, Col.fixed] at ihr ⊢
      rw [ihr]

/-- C3 witness: on the flat list {A : left, B : none, C : right} the
top-level check and the flattened-leaf check agree. -/
theorem hasFixed_top_level_witness :
    hasFixedColumns
        [Col.mk (some FixedSide.left) [], Col.mk none [], Col.mk (some FixedSide.right) []]
      = (flatColumns
          [Col.mk (some FixedSide.left) [], Col.mk none [], Col.mk (some FixedSide.right) []]).any
          isFixedCol :=
  hasFixed_top_level.2
    [Col.mk (some FixedSide.left) [], Col.mk none [], Col.mk (some FixedSide.right) []]
    (by intro c hc; fin_cases hc <;> rfl)

/-- C4 counterexample: the non-numeric height string `"abc"` parses to
`NaN` (`none` in the embedding), not to `0`, although the selected
layout mode is still `SINGLE_BLOCK`. -/
theorem tableHeight_nonnumeric_counterexample :
    tableHeight (JSHeight.str "abc") = none
    ∧ tableHeight (JSHeight.str "abc") ≠ some 0
    ∧ layoutMode (JSHeight.str "abc") = LayoutMode.SINGLE_BLOCK := by
  refine ⟨?_, ?_, ?_⟩ <;> decide

/-- C4 amended: the layout mode is a pure function of the configured
height; a number or a string parsing to a value `> 0` selects
`FIXED_HEADER_SPLIT`; an absent height parses to `0`, a string with no
numeric prefix parses to `NaN`, and any height not parsing to a positive
number selects `SINGLE_BLOCK`; in particular `height = 0` and an absent
height give `SINGLE_BLOCK` and `height = "120"` gives
`FIXED_HEADER_SPLIT`. -/
theorem layout_mode_of_height :
    (∀ n : Int, 0 < n → layoutMode (JSHeight.num n) = LayoutMode.FIXED_HEADER_SPLIT)
    ∧ (∀ (s : String) (v : Int), parseIntJS s.data = some v → 0 < v →
        layoutMode (JSHeight.str s) = LayoutMode.FIXED_HEADER_SPLIT)
    ∧ (∀ s : String, parseIntJS s.data = none →
        layoutMode (JSHeight.str s) = LayoutMode.SINGLE_BLOCK)
    ∧ (∀ n : Int, n ≤ 0 → layoutMode (JSHeight.num n) = LayoutMode.SINGLE_BLOCK)
    ∧ layoutMode JSHeight.undef = LayoutMode.SINGLE_BLOCK
    ∧ layoutMode (JSHeight.str "120") = LayoutMode.FIXED_HEADER_SPLIT := by
  refine ⟨?_, ?_, ?_, ?_, by decide, by decide⟩
  · intro n hn
    simp [layoutMode, fixedHeader, tableHeight, hn]
  · intro s v hv hpos
    simp [layoutMode, fixedHeader, tableHeight, hv, hpos]
  · intro s hnan
    simp [layoutMode, fixedHeader, tableHeight, hnan]
  · intro n hn
    simp [layoutMode, fixedHeader, tableHeight]
    omega

/-- C4 witness: a numeric height of 120 selects the fixed-header
layout. -/
theorem layout_mode_of_height_witness :
    layoutMode (JSHeight.num 120) = LayoutMode.FIXED_HEADER_SPLIT :=
  layout_mode_of_height.1 120 (by decide)

/-- C5 counterexample: with every source falsy — controlled `current`
absent, internal default `0`, and the caller explicitly passing
`defaultCurrent = 0` (and likewise for page size) — the reconciliation
returns the number `0`, not `undefined`. -/
theorem reconcile_zero_counterexample :
    truthy ((some (⟨none, some 0, none, some 0⟩ : PaginationProps)).bind
      PaginationProps.current) = false
    ∧ truthy (some (0 : Int)) = false
    ∧ truthy ((some (⟨none, some 0, none, some 0⟩ : PaginationProps)).bind
      PaginationProps.defaultCurrent) = false
    ∧ current (some (⟨none, some 0, none, some 0⟩ : PaginationProps)) 0 = some 0
    ∧ pageSize (some (⟨none, some 0, none, some 0⟩ : PaginationProps)) 0 = some 0 := by
  refine ⟨?_, ?_, ?_, ?_, ?_⟩ <;> decide

/-- C5 amended: when the controlled value is falsy and the internal
default is `0`, the reconciliation returns the caller-supplied
uncontrolled default verbatim — `undefined` when the pagination object
is absent or the default unset, but `0` when the caller explicitly
passes `0`. -/
theorem reconcile_falsy_fallthrough :
    (∀ (pag : Option PaginationProps) (d : Int),
        truthy (pag.bind PaginationProps.current) = false → d = 0 →
        current pag d = pag.bind PaginationProps.defaultCurrent)
    ∧ (∀ (pag : Option PaginationProps) (d : Int),
        truthy (pag.bind PaginationProps.pageSize) = false → d = 0 →
        pageSize pag d = pag.bind PaginationProps.defaultPageSize)
    ∧ current none 0 = none
    ∧ pageSize none 0 = none := by
  refine ⟨?_, ?_, rfl, rfl⟩
  · intro pag d hfalsy hd
    subst hd
    simp only [current, jsOr]
    rw [hfalsy]
    simp [truthy]
  · intro pag d hfalsy hd
    subst hd
    simp only [pageSize, jsOr]
    rw [hfalsy]
    simp [truthy]

/-- C5 witness: with no pagination object at all and internal default 0,
the reconciled current is `undefined`. -/
theorem reconcile_falsy_fallthrough_witness :
    current none 0 = (none : Option PaginationProps).bind PaginationProps.defaultCurrent :=
  reconcile_falsy_fallthrough.1 none 0 rfl rfl

/-- C6: the table is empty iff the current slice has no rows and the
table is not loading; loading with zero rows is not empty, not loading
with zero rows is empty, not loading with a row is not empty. -/
theorem isEmpty_iff_no_rows_and_not_loading :
    (∀ (α : Type) (rows : List α) (loading : Bool),
        isEmpty rows loading = true ↔ rows = [] ∧ loading = false)
    ∧ isEmpty ([] : List Int) true = false
    ∧ isEmpty ([] : List Int) false = true
    ∧ isEmpty ([0] : List Int) false = false := by
  refine ⟨?_, rfl, rfl, rfl⟩
  intro α rows loading
  cases loading <;> cases rows <;> simp [isEmpty]

/-- C7: both pagination-widget change handlers emit the `page-change`
notification with the dataset slice computed from the pagination values
as they were *before* the internal default is updated, and their only
state write is the corresponding internal default field; on a concrete
input the emitted slice differs from the slice under the post-update
state, so the before-update ordering is observable. -/
theorem page_change_emits_pre_update_slice :
    (∀ (α π : Type) (pag : PaginationProps) (data : List α) (st : TableState)
        (c ps : Int) (info : π),
        (onCurrentChange pag data st c info).2.slice = dataSource (some pag) st data
        ∧ (onCurrentChange pag data st c info).2.pageInfo = info
        ∧ (onCurrentChange pag data st c info).1 = ⟨c, st.defaultPageSize⟩
        ∧ (onPageSizeChange pag data st ps info).2.slice = dataSource (some pag) st data
        ∧ (onPageSizeChange pag data st ps info).2.pageInfo = info
        ∧ (onPageSizeChange pag data st ps info).1 = ⟨st.defaultCurrent, ps⟩)
    ∧ (onCurrentChange (⟨none, none, none, some 2⟩ : PaginationProps)
          ([1, 2, 3, 4, 5] : List Int) ⟨1, 0⟩ 2 (0 : Int)).2.slice
        ≠ dataSource (some (⟨none, none, none, some 2⟩ : PaginationProps))
            ((onCurrentChange (⟨none, none, none, some 2⟩ : PaginationProps)
              ([1, 2, 3, 4, 5] : List Int) ⟨1, 0⟩ 2 (0 : Int)).1)
            ([1, 2, 3, 4, 5] : List Int) := by
  refine ⟨?_, by decide⟩
  intro α π pag data st c ps info
  exact ⟨rfl, rfl, rfl, rfl, rfl, rfl⟩

/-- C8: `checkScrollableToLeftOrRight` destructures the scroll metrics
from the ref without a guard, so when the scroll-container ref is absent
it throws a `TypeError` instead of no-opping (no flag is updated, but an
error is raised). -/
theorem checkScrollable_absent_ref_throws :
    ∀ flags : ScrollFlags,
      checkScrollableToLeftOrRight none flags =
        Except.error "TypeError: cannot destructure scrollLeft of undefined" :=
  fun _ => rfl

/-- C9: `unmounted()` builds a *fresh* `debounce` wrapper and passes it
to `removeEventListener`, so the reference removed is not the reference
registered in `addWindowResizeEventListener()`; after mount-then-unmount
the originally registered resize handler is still attached (concretely,
starting from an empty registry the handler list is still `[0]`). -/
theorem resize_listener_not_removed :
    (∀ w : World, w.nextId ∈ (unmounted (addWindowResizeEventListener w)).listeners)
    ∧ (unmounted (addWindowResizeEventListener ⟨0, []⟩)).listeners = [0] := by
  constructor
  · intro w
    simp only [unmounted, addWindowResizeEventListener, debounce, addEventListener,
      removeEventListener]
    rw [List.mem_erase_of_ne (by omega)]
    simp
  · rfl

/-- C10: with a pagination object supplied, a usable page size `s`
(`1 ≤ s < data.length`) available from the controlled prop, but every
source of the current page absent, the computed row slice is the empty
list — `(undefined - 1) * s` is `NaN`, both slice bounds coerce to `0` —
and in particular it is not the full dataset. -/
theorem undefined_current_empty_slice :
    ∀ (α : Type) (s : Int) (data : List α), 1 ≤ s → s < (data.length : Int) →
      dataSource (some ⟨none, none, some s, none⟩) ⟨0, 0⟩ data = []
      ∧ dataSource (some ⟨none, none, some s, none⟩) ⟨0, 0⟩ data ≠ data := by
  intro α s data hs hlen
  have hempty : dataSource (some ⟨none, none, some s, none⟩) ⟨0, 0⟩ data = [] := by
    have hs0 : s ≠ 0 := by omega
    simp [dataSource, current, pageSize, jsOr, truthy, hs0, dataSlice, lenGt, hlen,
      jsSub, jsMul, jsSlice, sliceIndex]
  refine ⟨hempty, ?_⟩
  rw [hempty]
  intro hdata
  rw [← hdata] at hlen
  simp at hlen
  omega

/-- C10 witness: page size 1 over a 2-row dataset with no current page
from any source yields the empty slice. -/
theorem undefined_current_empty_slice_witness :
    dataSource (some ⟨none, none, some 1, none⟩) ⟨0, 0⟩ ([10, 20] : List Int) = [] :=
  (undefined_current_empty_slice Int 1 [10, 20] (by decide) (by decide)).1

end BaseTable
